import Mathlib

/-!
# Verification of the pystreamout Streamer

Shallow embedding of `src/pystreamout/pystreamout.py`.

The Python `Streamer` class owns a background worker thread, an exit
`Event`, and a verbosity flag.  The worker body (`Streamer.__flush`) loops
reading lines from a byte stream via `iter(stream.readline, b"")` and
prints each decoded line to stdout; `monitor` spawns the worker, `stop`
sets the exit event and joins, `is_monitoring` is a truthiness query.

Machine-level aspects are modelled as follows:

* bytes are `List Nat` (byte values); `bytes.decode()` is a UTF-8 decoder
  returning `Option String` (`Option.none` models a raised
  `UnicodeDecodeError`, which is a subclass of `ValueError`);
* the worker's interaction with its environment is a *schedule*: one
  `IterEnv` per evaluation of the `while` condition, recording the values
  of `self._exit.is_set()` and `stream.closed` at that check (both can be
  changed concurrently by `stop` or by the stream's owner), together with
  the `Burst` that `iter(stream.readline, b"")` would yield if the body
  runs;
* everything printed is an event list (`Ev`); `self.print` emits only when
  verbose, matching `Streamer.print`;
* `flushFn sched` returns `Option (List Ev)`: `some out` when the worker
  returns within the schedule (the function is total, mirroring that no
  exception escapes `__flush`), `Option.none` when the schedule is
  exhausted with the loop still running.
-/

namespace Pystreamout

/-! ## UTF-8 decoding (`bytes.decode()`) -/

/-- True for a UTF-8 continuation byte `0b10xxxxxx`. -/
def isCont (b : Nat) : Bool := 0x80 ≤ b && b < 0xC0

/-- Modelled from the spec: `bytes.decode()` is Python's built-in strict
UTF-8 decoder (the spec: output lines are "UTF-8 decoded from the input
bytes"); the builtin itself is not part of the repository source.  Fuel-
indexed decoder; each step consumes at least one byte, so fuel equal to
the length of the input suffices. -/
def utf8DecodeFuel : Nat → List Nat → Option (List Char)
  | _, [] => some []
  | 0, _ :: _ => Option.none
  | fuel + 1, b :: rest =>
    if b < 0x80 then
      (utf8DecodeFuel fuel rest).map (fun cs => Char.ofNat b :: cs)
    else if 0xC2 ≤ b && b ≤ 0xDF then
      match rest with
      | b1 :: rest1 =>
        if isCont b1 then
          (utf8DecodeFuel fuel rest1).map
            (fun cs => Char.ofNat ((b - 0xC0) * 0x40 + (b1 - 0x80)) :: cs)
        else Option.none
      | [] => Option.none
    else if 0xE0 ≤ b && b ≤ 0xEF then
      match rest with
      | b1 :: b2 :: rest2 =>
        if isCont b1 && isCont b2
            && !(b == 0xE0 && b1 < 0xA0)
            && !(b == 0xED && 0xA0 ≤ b1) then
          (utf8DecodeFuel fuel rest2).map
            (fun cs =>
              Char.ofNat ((b - 0xE0) * 0x1000 + (b1 - 0x80) * 0x40 + (b2 - 0x80)) :: cs)
        else Option.none
      | _ => Option.none
    else if 0xF0 ≤ b && b ≤ 0xF4 then
      match rest with
      | b1 :: b2 :: b3 :: rest3 =>
        if isCont b1 && isCont b2 && isCont b3
            && !(b == 0xF0 && b1 < 0x90)
            && !(b == 0xF4 && 0x8F < b1) then
          (utf8DecodeFuel fuel rest3).map
            (fun cs =>
              Char.ofNat ((b - 0xF0) * 0x40000 + (b1 - 0x80) * 0x1000
                + (b2 - 0x80) * 0x40 + (b3 - 0x80)) :: cs)
        else Option.none
      | _ => Option.none
    else Option.none

/-- `bs.decode()`: `some` of the decoded text, `Option.none` when Python
would raise `UnicodeDecodeError` (a `ValueError`). -/
def decodeUtf8 (bs : List Nat) : Option String :=
  (utf8DecodeFuel bs.length bs).map (fun cs => String.mk cs)

/-- Decode a list of byte chunks; `some texts` when every chunk decodes. -/
def decodeAll : List (List Nat) → Option (List String)
  | [] => some []
  | c :: cs =>
    match decodeUtf8 c, decodeAll cs with
    | some s, some ss => some (s :: ss)
    | _, _ => Option.none

/-! ## Diagnostic messages (`Streamer._messages`) -/

/-- Keys of the `Streamer._messages` table. -/
inductive Msg where
  | outputThreadIsNone
  | streamerClosedEarly
  | finished
  | alreadyMonitoring
  | streamNone
  | stopButNotMonitoring
  deriving DecidableEq, Repr

/-- The message text of each key, verbatim from `Streamer._messages`. -/
def msgText : Msg → String
  | Msg.outputThreadIsNone =>
      "\n            Streamer :: Nothing is being monitored.\n            Pass a stream to be monitored to the Streamer constructor or to the monitor instance method\n            "
  | Msg.streamerClosedEarly => "Streamer :: The stream closed while being read from"
  | Msg.finished => "Streamer :: done"
  | Msg.alreadyMonitoring => "Streamer :: Already monitoring"
  | Msg.streamNone => "Streamer :: The given stream to monitor is None"
  | Msg.stopButNotMonitoring => "Streamer :: stop called but not monitoring"

/-! ## Observable events -/

/-- One observable action of the Streamer:
`content s` is `print(line.decode())` with decoded text `s`;
`yielded` is the cooperative `time.sleep(0)` inside the read burst;
`log m` is a diagnostic emitted through `Streamer.print` (so a `log`
event only arises when verbose). -/
inductive Ev where
  | content (s : String)
  | yielded
  | log (m : Msg)
  deriving DecidableEq, Repr

/-- `Streamer.print`: prints the message only when `self.verbose`. -/
def logIf (verbose : Bool) (m : Msg) : List Ev :=
  if verbose then [Ev.log m] else []

/-- The text an event writes to stdout.  Python `print(x)` writes `x`
followed by a newline; `time.sleep(0)` writes nothing. -/
def render : Ev → String
  | Ev.content s => s ++ "\n"
  | Ev.yielded => ""
  | Ev.log m => msgText m ++ "\n"

/-- Concatenation of a list of strings. -/
def concatAll : List String → String
  | [] => ""
  | s :: rest => s ++ concatAll rest

/-- Total stdout text of an event list. -/
def stdoutOf (out : List Ev) : String :=
  concatAll (out.map render)

/-- The decoded line of a `content` event. -/
def contentOf : Ev → Option String
  | Ev.content s => some s
  | _ => Option.none

/-- The printed content lines of an output, in order. -/
def contentLines (out : List Ev) : List String :=
  out.filterMap contentOf

/-! ## The worker body (`Streamer.__flush`) -/

/-- How one pass of `iter(stream.readline, b"")` ends:
`eof` means `readline` returned `b""` (the iterator's sentinel),
`err` means `readline` raised `ValueError`. -/
inductive BurstEnd where
  | eof
  | err
  deriving DecidableEq, Repr

/-- What `iter(stream.readline, b"")` yields during one pass of the
`while` body: the non-sentinel byte chunks in order, then how the
iteration ends. -/
structure Burst where
  chunks : List (List Nat)
  ending : BurstEnd
  deriving DecidableEq, Repr

/-- The environment of one evaluation of the `while` condition:
the value of `self._exit.is_set()` and of `stream.closed` at the check
(either may have been changed concurrently since the previous pass),
and the burst the stream would deliver if the body runs. -/
structure IterEnv where
  exitSet : Bool
  closed : Bool
  burst : Burst
  deriving DecidableEq, Repr

/-- The body of the `for line in iter(stream.readline, b"")` loop, run on
the chunks of a burst with the local `buffer_size`.  For each chunk:
`print(line.decode())`, then `if buffer_size % 10 == 0: time.sleep(0)`.
The source never updates `buffer_size`, so the recursive call passes it
unchanged.  Returns the emitted events and whether a `ValueError`
(decode failure) interrupted the pass. -/
def processChunks (bufferSize : Nat) : List (List Nat) → List Ev × Bool
  | [] => ([], false)
  | c :: cs =>
    match decodeUtf8 c with
    | Option.none => ([], true)
    | some s =>
      let rest := processChunks bufferSize cs
      (Ev.content s :: ((if bufferSize % 10 == 0 then [Ev.yielded] else []) ++ rest.1),
        rest.2)

/-- The `while` loop of `Streamer.__flush`, driven by a schedule of
condition checks.  The condition is
`self._exit is not None and not self._exit.is_set() and stream is not None
and isinstance(stream, BinaryIO) and not stream.closed`;
`exitPresent`, `streamPresent` and `isBinaryInstance` are fixed for one
call, `exitSet`/`closed` come from the schedule entry.  When the
condition holds, the body sets `buffer_size = 0` and runs the burst; a
`ValueError` (from `readline` or from `decode`) prints the
closed-early diagnostic and breaks.  `Option.none` means the schedule
ran out with the loop still live. -/
def flushLoop (verbose exitPresent streamPresent isBinaryInstance : Bool) :
    List IterEnv → Option (List Ev)
  | [] => Option.none
  | e :: rest =>
    if exitPresent && !e.exitSet && streamPresent && isBinaryInstance && !e.closed then
      let p := processChunks 0 e.burst.chunks
      if p.2 then
        some (p.1 ++ logIf verbose Msg.streamerClosedEarly)
      else
        match e.burst.ending with
        | BurstEnd.err => some (p.1 ++ logIf verbose Msg.streamerClosedEarly)
        | BurstEnd.eof =>
          (flushLoop verbose exitPresent streamPresent isBinaryInstance rest).map
            (fun out => p.1 ++ out)
    else
      some []

/-- `Streamer.__flush`.  If `self._output_thread is None` it prints the
misuse diagnostic and returns `self._cleanup()`; otherwise it runs the
`while` loop and then calls `self._cleanup()`, which prints the finished
diagnostic.  Totality of this function models that `__flush` lets no
exception escape. -/
def flushFn (verbose outputThreadPresent exitPresent streamPresent isBinaryInstance : Bool)
    (sched : List IterEnv) : Option (List Ev) :=
  if !outputThreadPresent then
    some (logIf verbose Msg.outputThreadIsNone ++ logIf verbose Msg.finished)
  else
    (flushLoop verbose exitPresent streamPresent isBinaryInstance sched).map
      (fun out => out ++ logIf verbose Msg.finished)

/-! ## The Streamer state machine -/

/-- A `threading.Thread` handle as the Streamer observes it:
whether `is_alive()` returns true, and the `daemon` attribute set by
`monitor` before `start()`. -/
structure ThreadInfo where
  alive : Bool
  daemon : Bool
  deriving DecidableEq, Repr

/-- The state of one `Streamer` instance.
`outputThread` is `self._output_thread` (`Option.none` = Python `None`);
`exitEvent` is `self._exit` with its `is_set()` value;
`verbose` is `self.verbose`.
`boundStream` and `spawnCount` are bookkeeping fields with no Python
counterpart: the identifier of the stream handed to the live worker, and
how many times `Thread(...).start()` has run on this instance. -/
structure Streamer where
  outputThread : Option ThreadInfo
  exitEvent : Option Bool
  verbose : Bool
  boundStream : Option Nat
  spawnCount : Nat
  deriving DecidableEq, Repr

/-- A Python return value of `Streamer.is_monitoring`: the `and` chain
returns `None` itself when `self._output_thread` is `None`, otherwise a
boolean. -/
inductive PyRet where
  | vNone
  | vBool (b : Bool)
  deriving DecidableEq, Repr

/-- Python truthiness of an `is_monitoring` result. -/
def truthy : PyRet → Bool
  | PyRet.vNone => false
  | PyRet.vBool b => b

/-- `Streamer.is_monitoring`:
`self._output_thread and self._output_thread.is_alive() and not
self._exit.is_set()`.  With `_output_thread = None` the chain
short-circuits to `None`; with a dead thread it short-circuits to
`False` before touching `_exit` (in every state the class can reach, a
present thread implies a present exit event, see
`thread_implies_exit_event`). -/
def is_monitoring (s : Streamer) : PyRet :=
  match s.outputThread with
  | Option.none => PyRet.vNone
  | some t => PyRet.vBool (t.alive && !(s.exitEvent.getD false))

/-- `Streamer.__init__` before its optional `monitor` call:
`self._output_thread = None`, `self._exit = None`, `self.verbose = verbose`. -/
def init (verbose : Bool) : Streamer :=
  { outputThread := Option.none
    exitEvent := Option.none
    verbose := verbose
    boundStream := Option.none
    spawnCount := 0 }

/-- `Streamer.monitor`.  The stream argument is `Option.none` for Python
`None`, otherwise `some sid` with `sid` identifying the stream.  Guards in
source order: already monitoring → log and return; stream is `None` → log
and return; otherwise `self._exit = Event()` (fresh, unset), create the
worker thread, set `daemon = True`, `start()`.  Returns the successor
state and the events `monitor` itself prints (the spawned worker's
output is modelled separately by `flushFn`). -/
def monitor (s : Streamer) (stream : Option Nat) : Streamer × List Ev :=
  if truthy (is_monitoring s) then
    (s, logIf s.verbose Msg.alreadyMonitoring)
  else
    match stream with
    | Option.none => (s, logIf s.verbose Msg.streamNone)
    | some sid =>
      ({ s with
          exitEvent := some false
          outputThread := some { alive := true, daemon := true }
          boundStream := some sid
          spawnCount := s.spawnCount + 1 }, [])

/-- `Streamer.__init__`: with a non-`None` stream the constructor
immediately calls `monitor`. -/
def mkStreamer (stream : Option Nat) (verbose : Bool) : Streamer × List Ev :=
  match stream with
  | Option.none => (init verbose, [])
  | some sid => monitor (init verbose) (some sid)

/-- `Streamer.stop`.  If `is_monitoring()` is falsy → log and return.
Otherwise `self._exit.set()`, `time.sleep(0)`, then
`self._output_thread.join()`: `join` returns only once the worker has
exited (the worker does exit: its next `while` check sees the set exit
event, see `flushLoop` on a schedule whose head has `exitSet`), after
which `is_alive()` is false. -/
def stop (s : Streamer) : Streamer × List Ev :=
  if !truthy (is_monitoring s) then
    (s, logIf s.verbose Msg.stopButNotMonitoring)
  else
    ({ s with
        exitEvent := some true
        outputThread := s.outputThread.map (fun t => { t with alive := false }) }, [])

/-- An external call on a Streamer instance. -/
inductive Op where
  | mon (stream : Option Nat)
  | stp
  deriving DecidableEq, Repr

/-- State reached by one call. -/
def step (s : Streamer) (op : Op) : Streamer :=
  match op with
  | Op.mon stream => (monitor s stream).1
  | Op.stp => (stop s).1

/-- State reached by a sequence of calls. -/
def run (s : Streamer) (ops : List Op) : Streamer :=
  ops.foldl step s

/-! ## Helper definitions and lemmas -/

/-- The events of one complete read burst over decoded lines `texts`:
each printed line is followed by the cooperative yield (because
`buffer_size` stays `0` and `0 % 10 == 0`). -/
def burstEvs (texts : List String) : List Ev :=
  (texts.map (fun t => [Ev.content t, Ev.yielded])).flatten

/-- True for `log` events. -/
def isLog : Ev → Bool
  | Ev.log _ => true
  | _ => false

/-- True exactly for the closed-early diagnostic event. -/
def isClosedEarlyLog : Ev → Bool
  | Ev.log Msg.streamerClosedEarly => true
  | _ => false

/-- True exactly for the cooperative-yield event. -/
def isYield : Ev → Bool
  | Ev.yielded => true
  | _ => false

/-- A concrete instance state with a live worker and an unset exit event,
as reached by `monitor` on a fresh instance. -/
def sampleMonitoring : Streamer :=
  { outputThread := some { alive := true, daemon := true }
    exitEvent := some false
    verbose := false
    boundStream := some 1
    spawnCount := 1 }

/-- A concrete instance state after its worker has terminated and the
exit event was set, as reached by `stop`. -/
def sampleStopped : Streamer :=
  { outputThread := some { alive := false, daemon := true }
    exitEvent := some true
    verbose := false
    boundStream := some 1
    spawnCount := 1 }

lemma processChunks_zero (chunks : List (List Nat)) (texts : List String)
    (h : decodeAll chunks = some texts) :
    processChunks 0 chunks = (burstEvs texts, false) := by
  induction chunks generalizing texts with
  | nil =>
    simp only [decodeAll, Option.some.injEq] at h
    subst h
    rfl
  | cons c cs ih =>
    simp only [decodeAll] at h
    cases hd : decodeUtf8 c with
    | none => rw [hd] at h; exact absurd h (by simp)
    | some s =>
      rw [hd] at h
      cases hall : decodeAll cs with
      | none => rw [hall] at h; exact absurd h (by simp)
      | some ss =>
        rw [hall] at h
        simp only [Option.some.injEq] at h
        subst h
        simp [processChunks, hd, ih ss hall, burstEvs]

lemma contentLines_append (a b : List Ev) :
    contentLines (a ++ b) = contentLines a ++ contentLines b :=
  List.filterMap_append a b contentOf

lemma contentLines_burstEvs (texts : List String) :
    contentLines (burstEvs texts) = texts := by
  induction texts with
  | nil => rfl
  | cons t ts ih =>
    show contentLines ([Ev.content t, Ev.yielded] ++ burstEvs ts) = t :: ts
    rw [contentLines_append, ih]
    rfl

lemma contentLines_logIf (v : Bool) (m : Msg) :
    contentLines (logIf v m) = [] := by
  cases v <;> rfl

lemma stdoutOf_append (a b : List Ev) :
    stdoutOf (a ++ b) = stdoutOf a ++ stdoutOf b := by
  induction a with
  | nil =>
    show stdoutOf b = "" ++ stdoutOf b
    rw [String.empty_append]
  | cons e es ih =>
    show render e ++ stdoutOf (es ++ b) = (render e ++ stdoutOf es) ++ stdoutOf b
    rw [ih, String.append_assoc]

lemma stdoutOf_burstEvs (texts : List String) :
    stdoutOf (burstEvs texts) = concatAll (texts.map (fun t => t ++ "\n")) := by
  induction texts with
  | nil => rfl
  | cons t ts ih =>
    show stdoutOf ([Ev.content t, Ev.yielded] ++ burstEvs ts) = _
    rw [stdoutOf_append, ih]
    show (t ++ "\n") ++ ("" ++ "") ++ _ = (t ++ "\n") ++ _
    rw [String.append_empty, String.append_empty]

lemma flushLoop_no_content_of_empty_chunks
    (v ep sp bi : Bool) (rest : List IterEnv)
    (h : ∀ e ∈ rest, e.burst.chunks = []) :
    ∀ out, flushLoop v ep sp bi rest = some out → contentLines out = [] := by
  induction rest with
  | nil => intro out hout; exact absurd hout (by simp [flushLoop])
  | cons e rs ih =>
    intro out hout
    have he : e.burst.chunks = [] := h e (List.mem_cons_self e rs)
    have hrs : ∀ e' ∈ rs, e'.burst.chunks = [] :=
      fun e' he' => h e' (List.mem_cons_of_mem e he')
    rw [flushLoop, he] at hout
    by_cases hc : (ep && !e.exitSet && sp && bi && !e.closed) = true
    · rw [if_pos hc] at hout
      cases hend : e.burst.ending with
      | err =>
        rw [hend] at hout
        simp only [processChunks, Bool.false_eq_true, if_false, List.nil_append,
          Option.some.injEq] at hout
        subst hout
        exact contentLines_logIf v Msg.streamerClosedEarly
      | eof =>
        rw [hend] at hout
        simp only [processChunks, Bool.false_eq_true, if_false, List.nil_append] at hout
        cases htl : flushLoop v ep sp bi rs with
        | none => rw [htl] at hout; exact absurd hout (by simp)
        | some out' =>
          rw [htl] at hout
          simp only [Option.map_some', Option.some.injEq] at hout
          subst hout
          exact ih hrs out' htl
    · rw [if_neg hc] at hout
      simp only [Option.some.injEq] at hout
      subst hout
      rfl

lemma flushLoop_cons_eof (v : Bool) (chunks : List (List Nat)) (texts : List String)
    (rest : List IterEnv) (h : decodeAll chunks = some texts) :
    flushLoop v true true true
        ({ exitSet := false, closed := false,
           burst := { chunks := chunks, ending := BurstEnd.eof } } :: rest)
      = (flushLoop v true true true rest).map (fun out => burstEvs texts ++ out) := by
  rw [flushLoop]
  simp only [Bool.not_false, Bool.and_true, Bool.true_and, Bool.and_self, if_true]
  rw [processChunks_zero chunks texts h]
  simp

lemma flushLoop_exit (v ep sp bi : Bool) (e : IterEnv) (rest : List IterEnv)
    (hc : (ep && !e.exitSet && sp && bi && !e.closed) = false) :
    flushLoop v ep sp bi (e :: rest) = some [] := by
  rw [flushLoop, if_neg]
  simp [hc]

/-- C1: a stream that yields `N` non-empty line chunks and then the
end-of-stream marker (an empty read), monitored by a started worker,
results in exactly those `N` lines being printed, decoded, in order,
each newline-terminated, with no duplication or omission, before the
worker reaches its cleanup and terminates.  The first conjunct covers any
continuation of the schedule on which the stream yields nothing further:
whenever the worker terminates, the printed content lines are exactly
`texts`.  The second and third conjuncts exhibit the terminating run in
which the stream then reports closed, and its stdout text. -/
theorem monitored_lines_delivered_exactly (chunks : List (List Nat)) (texts : List String)
    (verbose : Bool) (rest : List IterEnv)
    (hdec : decodeAll chunks = some texts)
    (hne : ∀ c ∈ chunks, c ≠ [])
    (hrest : ∀ e ∈ rest, e.burst.chunks = []) :
    (∀ out, flushFn verbose true true true true
        ({ exitSet := false, closed := false,
           burst := { chunks := chunks, ending := BurstEnd.eof } } :: rest) = some out →
      contentLines out = texts) ∧
    flushFn verbose true true true true
        [{ exitSet := false, closed := false,
           burst := { chunks := chunks, ending := BurstEnd.eof } },
         { exitSet := false, closed := true,
           burst := { chunks := [], ending := BurstEnd.eof } }]
      = some (burstEvs texts ++ logIf verbose Msg.finished) ∧
    stdoutOf (burstEvs texts ++ logIf verbose Msg.finished)
      = concatAll (texts.map (fun t => t ++ "\n")) ++ stdoutOf (logIf verbose Msg.finished) := by
  refine ⟨?_, ?_, ?_⟩
  · intro out hout
    rw [flushFn] at hout
    simp only [Bool.not_true, Bool.false_eq_true, if_false] at hout
    rw [flushLoop_cons_eof verbose chunks texts rest hdec] at hout
    cases htl : flushLoop verbose true true true rest with
    | none => rw [htl] at hout; exact absurd hout (by simp)
    | some out' =>
      rw [htl] at hout
      simp only [Option.map_some', Option.some.injEq] at hout
      subst hout
      rw [contentLines_append, contentLines_append, contentLines_burstEvs,
        contentLines_logIf,
        flushLoop_no_content_of_empty_chunks verbose true true true rest hrest out' htl]
      simp
  · rw [flushFn]
    simp only [Bool.not_true, Bool.false_eq_true, if_false]
    rw [flushLoop_cons_eof verbose chunks texts _ hdec,
      flushLoop_exit verbose true true true _ _ (by simp)]
    simp
  · rw [stdoutOf_append, stdoutOf_burstEvs]

/-- Witness for C1: the two-chunk stream `[b"a", b"b"]` with `verbose`
set, ending with the stream reporting closed. -/
theorem monitored_lines_delivered_exactly_witness :
    flushFn true true true true true
        [{ exitSet := false, closed := false,
           burst := { chunks := [[97], [98]], ending := BurstEnd.eof } },
         { exitSet := false, closed := true,
           burst := { chunks := [], ending := BurstEnd.eof } }]
      = some (burstEvs ["a", "b"] ++ logIf true Msg.finished) :=
  (monitored_lines_delivered_exactly [[97], [98]] ["a", "b"] true []
    rfl (by decide) (by simp)).2.1

/-- C2: when `stop` is called on a monitoring instance it sets the exit
event and joins the worker; after it returns the thread is no longer
alive, `is_monitoring()` is falsy, `stop` itself printed nothing, and the
worker, at its next `while` check (the head of its remaining schedule,
which sees the set exit event), leaves the loop immediately, printing no
further line from the stream. -/
theorem stop_joins_and_silences (s : Streamer)
    (hmon : truthy (is_monitoring s) = true)
    (v ep sp bi : Bool) (e : IterEnv) (rest : List IterEnv)
    (he : e.exitSet = true) :
    (stop s).1.exitEvent = some true ∧
    (∀ t, (stop s).1.outputThread = some t → t.alive = false) ∧
    truthy (is_monitoring (stop s).1) = false ∧
    (stop s).2 = [] ∧
    flushLoop v ep sp bi (e :: rest) = some [] := by
  have hstop : stop s =
      ({ s with
          exitEvent := some true
          outputThread := s.outputThread.map (fun t => { t with alive := false }) }, []) := by
    rw [stop]
    simp [hmon]
  refine ⟨by rw [hstop], ?_, ?_, by rw [hstop],
    flushLoop_exit v ep sp bi e rest (by simp [he])⟩
  · intro t ht
    rw [hstop] at ht
    cases hot : s.outputThread with
    | none => rw [hot] at ht; exact absurd ht (by simp)
    | some t0 =>
      rw [hot] at ht
      simp only [Option.map_some', Option.some.injEq] at ht
      rw [← ht]
  · rw [hstop]
    cases hot : s.outputThread with
    | none => simp [is_monitoring, hot, truthy]
    | some t0 => simp [is_monitoring, hot, truthy]

/-- Witness for C2 at the concrete monitoring state. -/
theorem stop_joins_and_silences_witness :
    truthy (is_monitoring (stop sampleMonitoring).1) = false ∧
    flushLoop true true true true
        [{ exitSet := true, closed := false,
           burst := { chunks := [[97]], ending := BurstEnd.eof } }] = some [] :=
  ⟨(stop_joins_and_silences sampleMonitoring rfl true true true true
      { exitSet := true, closed := false,
        burst := { chunks := [[97]], ending := BurstEnd.eof } } [] rfl).2.2.1,
   (stop_joins_and_silences sampleMonitoring rfl true true true true
      { exitSet := true, closed := false,
        burst := { chunks := [[97]], ending := BurstEnd.eof } } [] rfl).2.2.2.2⟩

/-- C3 counterexample: invoking the worker read loop without a valid
worker context (`self._output_thread is None`) on a verbose instance
prints two diagnostic log lines — the misuse message and then the
`finished` message from `self._cleanup()` — not at most one. -/
theorem flush_misuse_prints_two_diagnostics :
    flushFn true false true true true []
      = some [Ev.log Msg.outputThreadIsNone, Ev.log Msg.finished] ∧
    (List.filter isLog ((flushFn true false true true true []).getD [])).length = 2 :=
  ⟨rfl, rfl⟩

/-- C3 amended: the misuse calls never raise (each is a total function
here, as `__flush`, `monitor` and `stop` catch or guard everything) and
leave the monitoring state unchanged; `monitor` with a `None` stream and
`stop` while not monitoring print at most one diagnostic, gated by
verbose; the direct read-loop misuse prints exactly two diagnostics when
verbose (the misuse message and the cleanup message) and none otherwise,
and never prints a content line. -/
theorem misuse_calls_are_safe_noops (s : Streamer) (v ep sp bi : Bool)
    (sched : List IterEnv) :
    (monitor s Option.none).1 = s ∧
    (monitor s Option.none).2 =
      logIf s.verbose
        (if truthy (is_monitoring s) then Msg.alreadyMonitoring else Msg.streamNone) ∧
    (truthy (is_monitoring s) = false →
      stop s = (s, logIf s.verbose Msg.stopButNotMonitoring)) ∧
    flushFn v false ep sp bi sched
      = some (logIf v Msg.outputThreadIsNone ++ logIf v Msg.finished) ∧
    contentLines (logIf v Msg.outputThreadIsNone ++ logIf v Msg.finished) = [] ∧
    (logIf v Msg.outputThreadIsNone ++ logIf v Msg.finished).length ≤ 2 := by
  refine ⟨?_, ?_, ?_, ?_, ?_, ?_⟩
  · rw [monitor]
    by_cases hm : truthy (is_monitoring s) = true
    · rw [if_pos hm]
    · rw [if_neg hm]
  · rw [monitor]
    by_cases hm : truthy (is_monitoring s) = true
    · rw [if_pos hm, hm, if_pos rfl]
    · rw [if_neg hm, if_neg]
      simp only [Bool.not_eq_true] at hm
      simp [hm]
  · intro h
    rw [stop]
    simp [h]
  · rw [flushFn]
    simp
  · rw [contentLines_append, contentLines_logIf, contentLines_logIf]
    rfl
  · cases v <;> simp [logIf]

/-- Witness for C3's amended theorem at the fresh non-monitoring
instance. -/
theorem misuse_calls_are_safe_noops_witness :
    stop (init true) = (init true, logIf true Msg.stopButNotMonitoring) :=
  (misuse_calls_are_safe_noops (init true) true true true true []).2.2.1 rfl

lemma countP_closedEarly_burstEvs (texts : List String) :
    List.countP isClosedEarlyLog (burstEvs texts) = 0 := by
  induction texts with
  | nil => rfl
  | cons t ts ih =>
    show List.countP isClosedEarlyLog ([Ev.content t, Ev.yielded] ++ burstEvs ts) = 0
    rw [List.countP_append, ih]
    rfl

/-- C4: when `readline` raises the closed-resource `ValueError` during a
pass of the read loop, the worker prints the lines read so far, logs the
closed-early diagnostic exactly once, then the finished diagnostic, and
terminates — independently of any remaining schedule (the loop is left
by `break`), with no exception escaping (`flushFn` is total and returns
`some`). -/
theorem readline_valueerror_clean_shutdown (chunks : List (List Nat)) (texts : List String)
    (rest : List IterEnv) (hdec : decodeAll chunks = some texts) :
    flushFn true true true true true
        ({ exitSet := false, closed := false,
           burst := { chunks := chunks, ending := BurstEnd.err } } :: rest)
      = some (burstEvs texts ++ [Ev.log Msg.streamerClosedEarly, Ev.log Msg.finished]) ∧
    List.countP isClosedEarlyLog
        (burstEvs texts ++ [Ev.log Msg.streamerClosedEarly, Ev.log Msg.finished]) = 1 := by
  constructor
  · rw [flushFn]
    simp only [Bool.not_true, Bool.false_eq_true, if_false]
    rw [flushLoop]
    simp only [Bool.not_false, Bool.and_true, Bool.true_and, Bool.and_self, if_true]
    rw [processChunks_zero chunks texts hdec]
    simp [logIf, List.append_assoc]
  · rw [List.countP_append, countP_closedEarly_burstEvs]
    rfl

/-- Witness for C4 at the one-chunk stream `[b"a"]`. -/
theorem readline_valueerror_clean_shutdown_witness :
    flushFn true true true true true
        [{ exitSet := false, closed := false,
           burst := { chunks := [[97]], ending := BurstEnd.err } }]
      = some (burstEvs ["a"] ++ [Ev.log Msg.streamerClosedEarly, Ev.log Msg.finished]) :=
  (readline_valueerror_clean_shutdown [[97]] ["a"] [] rfl).1

/-- C5 counterexample: after the first burst ends with the end-of-stream
marker, with the exit signal unset and the stream still open, the worker
does not exit — on the next pass it reads and prints a further line
(`b"b"`). -/
theorem eof_does_not_terminate_loop :
    ∃ out, flushFn true true true true true
        [{ exitSet := false, closed := false,
           burst := { chunks := [[97]], ending := BurstEnd.eof } },
         { exitSet := false, closed := false,
           burst := { chunks := [[98]], ending := BurstEnd.eof } },
         { exitSet := false, closed := true,
           burst := { chunks := [], ending := BurstEnd.eof } }]
      = some out ∧ Ev.content "b" ∈ out := by
  refine ⟨[Ev.content "a", Ev.yielded, Ev.content "b", Ev.yielded, Ev.log Msg.finished],
    by decide, ?_⟩
  exact List.Mem.tail _ (List.Mem.tail _ (List.Mem.head _))

/-- C5 amended: an empty read ends only the current read burst; the
worker then re-evaluates the `while` condition and continues polling the
stream when the exit signal is unset and the stream is open — it leaves
the loop (and then logs "finished") only at a check where the condition
fails (exit set, or stream closed), or on a `ValueError`. -/
theorem eof_ends_burst_not_loop (chunks : List (List Nat)) (texts : List String)
    (v : Bool) (rest : List IterEnv) (b : Burst)
    (hdec : decodeAll chunks = some texts) :
    flushLoop v true true true
        ({ exitSet := false, closed := false,
           burst := { chunks := chunks, ending := BurstEnd.eof } } :: rest)
      = (flushLoop v true true true rest).map (fun out => burstEvs texts ++ out) ∧
    flushLoop v true true true ({ exitSet := false, closed := true, burst := b } :: rest)
      = some [] ∧
    flushLoop v true true true ({ exitSet := true, closed := false, burst := b } :: rest)
      = some [] :=
  ⟨flushLoop_cons_eof v chunks texts rest hdec,
   flushLoop_exit v true true true _ rest (by simp),
   flushLoop_exit v true true true _ rest (by simp)⟩

/-- Witness for C5's amended theorem at the one-chunk stream `[b"a"]`. -/
theorem eof_ends_burst_not_loop_witness :
    flushLoop true true true true
        [{ exitSet := false, closed := false,
           burst := { chunks := [[97]], ending := BurstEnd.eof } }]
      = (flushLoop true true true true []).map (fun out => burstEvs ["a"] ++ out) :=
  (eof_ends_burst_not_loop [[97]] ["a"] true []
    { chunks := [], ending := BurstEnd.eof } rfl).1

/-- C6 counterexample: after `monitor` is called once with a `None`
stream no worker handle exists (so "handle present iff monitor called at
least once" fails), and a stopped instance accepts a second stream — the
same instance spawns a second worker bound to the new stream (so
"single-use, second stream rejected" fails). -/
theorem worker_handle_invariant_counterexample :
    (run (init false) [Op.mon Option.none]).outputThread = Option.none ∧
    (run (init false) [Op.mon (some 1), Op.stp, Op.mon (some 2)]).spawnCount = 2 ∧
    (run (init false) [Op.mon (some 1), Op.stp, Op.mon (some 2)]).boundStream = some 2 :=
  ⟨rfl, rfl, rfl⟩

lemma run_cons (s : Streamer) (op : Op) (ops : List Op) :
    run s (op :: ops) = run (step s op) ops := rfl

lemma run_mon_mem (ops : List Op) :
    ∀ s : Streamer, s.outputThread = Option.none →
      (run s ops).outputThread ≠ Option.none → ∃ st, Op.mon st ∈ ops := by
  induction ops with
  | nil => intro s hs h; exact absurd hs h
  | cons op ops ih =>
    intro s hs h
    cases op with
    | mon st => exact ⟨st, List.mem_cons_self _ _⟩
    | stp =>
      have hstep : step s Op.stp = s := by
        rw [step, stop]
        simp [is_monitoring, hs, truthy]
      rw [run_cons, hstep] at h
      obtain ⟨st, hm⟩ := ih s hs h
      exact ⟨st, List.mem_cons_of_mem _ hm⟩

/-- C6 amended: a worker handle is present only if `monitor` has been
called (the converse fails: a `monitor` call with a `None` stream
creates no handle); once present the handle is never cleared by any
later call (though re-arming replaces it); and a second stream is
rejected only while the instance is actively monitoring — a stopped
instance accepts one. -/
theorem worker_handle_invariant_amended :
    (∀ (v : Bool) (ops : List Op),
      (run (init v) ops).outputThread ≠ Option.none → ∃ st, Op.mon st ∈ ops) ∧
    (∀ (s : Streamer) (op : Op),
      s.outputThread ≠ Option.none → (step s op).outputThread ≠ Option.none) ∧
    (∀ (s : Streamer) (st : Option Nat),
      truthy (is_monitoring s) = true → step s (Op.mon st) = s) := by
  refine ⟨fun v ops h => run_mon_mem ops (init v) rfl h, ?_, ?_⟩
  · intro s op h
    cases op with
    | mon st =>
      cases st with
      | none =>
        rw [step, monitor]
        by_cases hm : truthy (is_monitoring s) = true
        · rw [if_pos hm]; exact h
        · rw [if_neg hm]; exact h
      | some sid =>
        rw [step, monitor]
        by_cases hm : truthy (is_monitoring s) = true
        · rw [if_pos hm]; exact h
        · rw [if_neg hm]; simp
    | stp =>
      rw [step, stop]
      by_cases hm : (!truthy (is_monitoring s)) = true
      · rw [if_pos hm]; exact h
      · rw [if_neg hm]
        cases hot : s.outputThread with
        | none => exact absurd hot h
        | some t => simp
  · intro s st hm
    cases st with
    | none => rw [step, monitor, if_pos hm]
    | some sid => rw [step, monitor, if_pos hm]

/-- Witness for C6's amended theorem: a second `monitor` call on the
concrete actively-monitoring state is a no-op. -/
theorem worker_handle_invariant_amended_witness :
    step sampleMonitoring (Op.mon (some 2)) = sampleMonitoring :=
  worker_handle_invariant_amended.2.2 sampleMonitoring (some 2) rfl

/-- C7: `monitor` with a valid stream on a stopped instance (worker no
longer alive, or exit signal set) re-arms it: a fresh unset exit event, a
single new worker (spawn count increases by exactly one) marked daemon
and bound to the given stream, and `monitor` itself prints nothing and
returns without reading any line. -/
theorem rearm_after_stop (s : Streamer) (sid : Nat)
    (h : (∀ t, s.outputThread = some t → t.alive = false) ∨ s.exitEvent = some true) :
    (monitor s (some sid)).1.exitEvent = some false ∧
    (monitor s (some sid)).1.outputThread = some { alive := true, daemon := true } ∧
    (monitor s (some sid)).1.boundStream = some sid ∧
    (monitor s (some sid)).1.spawnCount = s.spawnCount + 1 ∧
    (monitor s (some sid)).2 = [] := by
  have hnm : truthy (is_monitoring s) = false := by
    cases hot : s.outputThread with
    | none => simp [is_monitoring, hot, truthy]
    | some t =>
      rcases h with ha | he
      · simp [is_monitoring, hot, truthy, ha t hot]
      · simp [is_monitoring, hot, truthy, he]
  have hm : monitor s (some sid) =
      ({ s with
          exitEvent := some false
          outputThread := some { alive := true, daemon := true }
          boundStream := some sid
          spawnCount := s.spawnCount + 1 }, []) := by
    rw [monitor]
    simp [hnm]
  rw [hm]
  exact ⟨rfl, rfl, rfl, rfl, rfl⟩

/-- Witness for C7 at the concrete stopped state and stream `7`. -/
theorem rearm_after_stop_witness :
    (monitor sampleStopped (some 7)).1.outputThread
        = some { alive := true, daemon := true } ∧
    (monitor sampleStopped (some 7)).1.exitEvent = some false :=
  ⟨(rearm_after_stop sampleStopped 7 (Or.inr rfl)).2.1,
   (rearm_after_stop sampleStopped 7 (Or.inr rfl)).1⟩

/-- C8 counterexample: `buffer_size` stays `0`, so `buffer_size % 10 == 0`
holds and the cooperative yield fires during a burst — already on its
first line — contradicting "the yield condition never triggers during a
burst". -/
theorem yield_fires_within_burst :
    Ev.yielded ∈ (processChunks 0 [[97]]).1 := by
  show Ev.yielded ∈ [Ev.content "a", Ev.yielded]
  exact List.Mem.tail _ (List.Mem.head _)

lemma countP_isYield_burstEvs (texts : List String) :
    List.countP isYield (burstEvs texts) = texts.length := by
  induction texts with
  | nil => rfl
  | cons t ts ih =>
    show List.countP isYield ([Ev.content t, Ev.yielded] ++ burstEvs ts) = ts.length + 1
    rw [List.countP_append, ih]
    simp [List.countP_cons, isYield]
    omega

/-- C8 amended: the counter indeed never advances within a burst
(`buffer_size` is never updated), but in consequence the condition
`buffer_size % 10 == 0` is always true, so the cooperative yield fires
after every printed line — once per line, not never. -/
theorem yield_after_every_line (chunks : List (List Nat)) (texts : List String)
    (hdec : decodeAll chunks = some texts) :
    (processChunks 0 chunks).1
      = (texts.map (fun t => [Ev.content t, Ev.yielded])).flatten ∧
    List.countP isYield (processChunks 0 chunks).1 = texts.length := by
  rw [processChunks_zero chunks texts hdec]
  exact ⟨rfl, countP_isYield_burstEvs texts⟩

/-- Witness for C8's amended theorem at the one-chunk stream `[b"a"]`. -/
theorem yield_after_every_line_witness :
    (processChunks 0 [[97]]).1
      = (["a"].map (fun t => [Ev.content t, Ev.yielded])).flatten :=
  (yield_after_every_line [[97]] ["a"] rfl).1

/-- C9 counterexample: in the unstarted state `is_monitoring()` returns
Python `None` (the truthiness chain short-circuits on the absent
thread), not the boolean value `False`. -/
theorem unstarted_is_monitoring_returns_none :
    is_monitoring (init false) = PyRet.vNone ∧
    is_monitoring (init false) ≠ PyRet.vBool false :=
  ⟨rfl, by decide⟩

/-- C9 amended: `is_monitoring` is a pure query (a function of the
state) whose result is truthy iff a worker was created, it is alive, and
the exit signal is unset; in the unstarted state it returns `None`
(falsy), and in stopped states (dead worker, or set exit signal) it
returns the boolean `False`. -/
theorem is_monitoring_truthiness (s : Streamer) :
    (truthy (is_monitoring s) = true ↔
      ∃ t, s.outputThread = some t ∧ t.alive = true ∧ s.exitEvent.getD false = false) ∧
    (s.outputThread = Option.none → is_monitoring s = PyRet.vNone) ∧
    (∀ t, s.outputThread = some t → t.alive = false →
      is_monitoring s = PyRet.vBool false) ∧
    (∀ t, s.outputThread = some t → s.exitEvent = some true →
      is_monitoring s = PyRet.vBool false) := by
  refine ⟨⟨?_, ?_⟩, ?_, ?_, ?_⟩
  · intro h
    cases hot : s.outputThread with
    | none => simp [is_monitoring, hot, truthy] at h
    | some t =>
      simp only [is_monitoring, hot, truthy, Bool.and_eq_true, Bool.not_eq_true'] at h
      exact ⟨t, rfl, h.1, h.2⟩
  · rintro ⟨t, hot, halive, hexit⟩
    simp [is_monitoring, hot, truthy, halive, hexit]
  · intro h
    simp [is_monitoring, h]
  · intro t hot halive
    simp [is_monitoring, hot, halive]
  · intro t hot hexit
    simp [is_monitoring, hot, hexit]

/-- Witness for C9's amended theorem at the fresh instance. -/
theorem is_monitoring_truthiness_witness :
    is_monitoring (init true) = PyRet.vNone :=
  (is_monitoring_truthiness (init true)).2.1 rfl

/-- C10: when the supplied stream is not an instance of
`typing.BinaryIO` — even though it is non-`None` and open — the
`isinstance` conjunct of the `while` condition is false, so the worker
reads nothing, prints no content line, and terminates at once after the
`finished` cleanup log: delivery depends on the stream's concrete class,
not only on its `readline`/`closed` contract. -/
theorem non_binary_instance_reads_nothing (v ep : Bool) (e : IterEnv)
    (rest : List IterEnv) (hopen : e.closed = false) :
    flushFn v true ep true false (e :: rest) = some (logIf v Msg.finished) ∧
    contentLines (logIf v Msg.finished) = [] := by
  constructor
  · rw [flushFn]
    simp only [Bool.not_true, Bool.false_eq_true, if_false]
    rw [flushLoop_exit v ep true false e rest (by simp)]
    simp
  · exact contentLines_logIf v Msg.finished

/-- Witness for C10 at an open one-chunk stream. -/
theorem non_binary_instance_reads_nothing_witness :
    flushFn true true true true false
        [{ exitSet := false, closed := false,
           burst := { chunks := [[97]], ending := BurstEnd.eof } }]
      = some (logIf true Msg.finished) :=
  (non_binary_instance_reads_nothing true true
    { exitSet := false, closed := false,
      burst := { chunks := [[97]], ending := BurstEnd.eof } } [] rfl).1

end Pystreamout
